import Mathlib

/-!
Shallow embedding of `app.py` (anthonyng2/learnlm), a Streamlit chat front-end
for the Gemini API.

Modelling conventions:
* The external generation service (`genai.GenerativeModel(...).generate_content`)
  is an oracle `GenService`: given question, backend model name and temperature it
  either returns text (`.ok`) or raises a service error (`.error msg`).
* The backing file `conversations.json` is a `FileState`: absent, present but
  unparseable (`corrupt msg`, where `msg` is the message of the exception
  `json.load` would raise), or a parsed list of records.  A record is a JSON
  object whose four known keys may each be present or missing (`Option String`),
  matching `conv.get('model', 'Unknown')` access in the source.
* I/O faults are an environment `IOEnv`: `readErr` is the message of the
  exception raised when opening/reading the file (if any), `writeErr` the one
  raised when opening/writing it.
* The process-wide diagnostic log is a `List String` threaded through the
  operations; `logging.info`/`logging.error msg` appends `msg`.
* Python temperatures are floats only passed through to the service; they are
  modelled as `ℚ`.
* An uncaught Python exception is modelled as `Except.error` in the result type
  of the operation that lets it propagate.
-/

namespace LearnLM

/-- Static per-model configuration, one entry of the `MODELS` table
(`app.py` lines 32-57). -/
structure ModelDescriptor where
  model_name : String
  description : String
  max_temperature : ℚ
  default_temperature : ℚ
deriving DecidableEq

/-- The `MODELS` table of `app.py` lines 32-57, in declaration order:
label ↦ descriptor. -/
def MODELS : List (String × ModelDescriptor) :=
  [("Gemini 1.5 Pro",
     ⟨"gemini-1.5-pro", "Most capable model for complex tasks", 1, 7/10⟩),
   ("Gemini 1.5 Flash",
     ⟨"gemini-1.5-flash", "Optimized for speed and efficiency", 1, 7/10⟩),
   ("Gemini 1.5 Flash 8B",
     ⟨"gemini-1.5-flash-8b", "Lighter and faster variant", 1, 7/10⟩),
   ("LearnLM 1.5 Pro (Experimental)",
     ⟨"learnlm-1.5-pro-experimental",
      "Experimental model with enhanced learning capabilities", 1, 7/10⟩)]

/-- One record of `conversations.json`: a JSON object whose four known keys
may each be present (`some`) or missing (`none`); `save_conversation` always
writes all four (`app.py` lines 61-66), but the statistics code reads records
defensively with `conv.get('model', 'Unknown')` (line 147). -/
structure ConversationRec where
  timestamp : Option String
  model : Option String
  question : Option String
  response : Option String
deriving DecidableEq

/-- The record built at `app.py` lines 61-66 (all four fields present;
the timestamp string is produced by `datetime.now().strftime` and passed
in here as an input, the clock being external). -/
def mkConversation (timestamp model_name question response : String) :
    ConversationRec :=
  ⟨some timestamp, some model_name, some question, some response⟩

/-- State of the backing file `conversations.json`. -/
inductive FileState where
  | absent
  | corrupt (msg : String)
  | valid (conversations : List ConversationRec)
deriving DecidableEq

/-- Fault environment for one pass over the store: `readErr`/`writeErr` hold
the message of the I/O exception raised on read/write, if any. -/
structure IOEnv where
  readErr : Option String
  writeErr : Option String
deriving DecidableEq

/-- Loading the store as the source does (`os.path.exists` then
`json.load`, `app.py` lines 70-74 and 139-141): an absent file yields the
empty list without touching the file; otherwise an I/O fault or a parse
failure raises (`.error`). -/
def readStore (env : IOEnv) : FileState → Except String (List ConversationRec)
  | .absent => .ok []
  | .corrupt m => .error (env.readErr.getD m)
  | .valid cs =>
      match env.readErr with
      | some e => .error e
      | none => .ok cs

/-- The function `save_conversation(question, response, model_name)` of
`app.py` lines 59-89.  Returns the new file state and diagnostic log.  The
whole read-append-write, including the three `logging.info` lines that follow
the write, sits in one `try`; `except Exception` logs
`"Error saving conversation: ..."` and returns. -/
def save_conversation (env : IOEnv) (fs : FileState)
    (question response model_name timestamp : String) (log : List String) :
    FileState × List String :=
  let conversation := mkConversation timestamp model_name question response
  match readStore env fs with
  | .error e => (fs, log ++ ["Error saving conversation: " ++ e])
  | .ok conversations =>
      match env.writeErr with
      | some e => (fs, log ++ ["Error saving conversation: " ++ e])
      | none =>
          (.valid (conversations ++ [conversation]),
           log ++ ["Model: " ++ model_name,
                   "Q: " ++ question,
                   "R: " ++ response])

/-- The external generation service: question, backend model name,
temperature ↦ generated text or a raised service error. -/
def GenService : Type :=
  String → String → ℚ → Except String String

/-- The function `get_gemini_response(question, model_name, temperature)` of
`app.py` lines 91-104: one blocking service call; on success the text is
returned verbatim; any exception is converted to
`"An error occurred with <model_name>: <msg>"`, logged, and returned as the
response. -/
def get_gemini_response (svc : GenService) (question model_name : String)
    (temperature : ℚ) (log : List String) : String × List String :=
  match svc question model_name temperature with
  | .ok text => (text, log)
  | .error e =>
      let error_msg := "An error occurred with " ++ model_name ++ ": " ++ e
      (error_msg, log ++ [error_msg])

/-- One step of the per-model tally at `app.py` line 148:
`model_counts[model_name] = model_counts.get(model_name, 0) + 1` on a Python
dict (first occurrence updated in place, new keys appended). -/
def bumpCount : List (String × Nat) → String → List (String × Nat)
  | [], m => [(m, 1)]
  | (k, v) :: rest, m =>
      if k = m then (k, v + 1) :: rest else (k, v) :: bumpCount rest m

/-- The loop body of `app.py` lines 146-148 over one record. -/
def countStep (acc : List (String × Nat)) (conv : ConversationRec) :
    List (String × Nat) :=
  bumpCount acc (conv.model.getD "Unknown")

/-- The per-model tally `model_counts` of `app.py` lines 145-148. -/
def model_counts (conversations : List ConversationRec) : List (String × Nat) :=
  conversations.foldl countStep []

/-- The sidebar statistics block of `app.py` lines 139-156: nothing is shown
when the file is absent (`.ok none`); otherwise the file is loaded with NO
exception handler, so a read failure propagates (`.error`); on success it
yields `conversation_count` (line 142) and `model_counts` (lines 145-148). -/
def sidebar_stats (env : IOEnv) (fs : FileState) :
    Except String (Option (Nat × List (String × Nat))) :=
  if fs = .absent then .ok none
  else
    match readStore env fs with
    | .error e => .error e
    | .ok conversations =>
        .ok (some (conversations.length, model_counts conversations))

/-- The total `conversation_count` of `app.py` line 142, as computed by the
sidebar statistics block. -/
def conversation_count (env : IOEnv) (fs : FileState) :
    Except String (Option Nat) :=
  (sidebar_stats env fs).map (Option.map Prod.fst)

/-- One message of the in-memory session transcript
(`st.session_state.messages`): role, content, and for assistant messages the
selected model label (`app.py` lines 176-179 and 189-193). -/
structure Message where
  role : String
  content : String
  model : Option String
deriving DecidableEq

/-- The chat-input handler of `app.py` lines 170-196, run for one non-empty
prompt: resolve `MODELS[selected_model]` (a `KeyError` on an unknown label is
unhandled, hence `Option`), append the user message, call
`get_gemini_response` with the backend `model_name`, append the assistant
message tagged with the label, then `save_conversation(prompt, response,
selected_model)` — note the stored model field is the LABEL, not the backend
identifier. -/
def chat_handler (svc : GenService) (env : IOEnv) (selected_model : String)
    (temperature : ℚ) (timestamp prompt : String)
    (messages : List Message) (fs : FileState) (log : List String) :
    Option (List Message × FileState × List String) :=
  match (MODELS.find? (fun p => p.1 = selected_model)).map Prod.snd with
  | none => none
  | some desc =>
      let messages := messages ++ [⟨"user", prompt, none⟩]
      let rl := get_gemini_response svc prompt desc.model_name temperature log
      let response := rl.1
      let messages := messages ++ [⟨"assistant", response, some selected_model⟩]
      let fl := save_conversation env fs prompt response selected_model
                  timestamp rl.2
      some (messages, fl.1, fl.2)

/-! Specification-side helpers (not themselves part of the source): success
and failure of one `save_conversation` pass, and iterated appends. -/

/-- Whether the load at `app.py` lines 70-74 succeeds. -/
def readOk (env : IOEnv) (fs : FileState) : Bool :=
  match readStore env fs with
  | .ok _ => true
  | .error _ => false

/-- Whether one `save_conversation` call takes its fully successful path
(read and write both succeed). -/
def saveSucceeds (env : IOEnv) (fs : FileState) : Bool :=
  readOk env fs && env.writeErr.isNone

/-- The message of the exception caught by `save_conversation`, when one is
raised. -/
def saveError (env : IOEnv) (fs : FileState) : Option String :=
  match readStore env fs with
  | .error e => some e
  | .ok _ => env.writeErr

/-- Logical number of records held by the store (undefined for a corrupt
file). -/
def initialCount : FileState → Option Nat
  | .absent => some 0
  | .corrupt _ => none
  | .valid cs => some cs.length

/-- Arguments of one `save_conversation` call. -/
structure SaveInput where
  question : String
  response : String
  model_name : String
  timestamp : String
deriving DecidableEq

/-- Iterated `save_conversation` calls, each under its own fault
environment, tracking the file state. -/
def runAppends : List (IOEnv × SaveInput) → FileState → FileState
  | [], fs => fs
  | (env, inp) :: rest, fs =>
      runAppends rest
        (save_conversation env fs inp.question inp.response inp.model_name
          inp.timestamp []).1

/-- Every call in the sequence takes the fully successful path. -/
def allSucceed : List (IOEnv × SaveInput) → FileState → Bool
  | [], _ => true
  | (env, inp) :: rest, fs =>
      saveSucceeds env fs &&
      allSucceed rest
        (save_conversation env fs inp.question inp.response inp.model_name
          inp.timestamp []).1

/-- Sum of the values of a tally. -/
def sumValues : List (String × Nat) → Nat
  | [] => 0
  | p :: rest => p.2 + sumValues rest

/-- Count held by a tally for one key (0 when the key is missing). -/
def lookupCount : List (String × Nat) → String → Nat
  | [], _ => 0
  | p :: rest, k => if p.1 = k then p.2 else lookupCount rest k

/-- A service that always fails, e.g. the Gateway configured with an invalid
credential. -/
def svcFail : GenService :=
  fun _ _ _ => .error "API key not valid. Please pass a valid API key."

/-- A service that always answers. -/
def svcOk : GenService :=
  fun _ _ _ => .ok "hello"

/-! ## Claim theorems -/

/-- C1: for every supported backend identifier and every temperature in
`[0, max_temperature]`, `get_gemini_response` never raises: it either returns
the service's text verbatim leaving the log untouched, or, on any service
failure, returns `"An error occurred with <backend_id>: <msg>"` as the
response, also appending exactly that string to the diagnostic log. -/
theorem generate_total (svc : GenService) (question : String) (temp : ℚ)
    (log : List String) (label : String) (d : ModelDescriptor)
    (hmem : (label, d) ∈ MODELS) (h0 : 0 ≤ temp)
    (h1 : temp ≤ d.max_temperature) :
    (∃ text, svc question d.model_name temp = .ok text ∧
      get_gemini_response svc question d.model_name temp log = (text, log)) ∨
    (∃ e, svc question d.model_name temp = .error e ∧
      get_gemini_response svc question d.model_name temp log =
        ("An error occurred with " ++ d.model_name ++ ": " ++ e,
         log ++ ["An error occurred with " ++ d.model_name ++ ": " ++ e])) := by
  cases h : svc question d.model_name temp with
  | ok text => exact .inl ⟨text, rfl, by simp [get_gemini_response, h]⟩
  | error e => exact .inr ⟨e, rfl, by simp [get_gemini_response, h]⟩

/-- Witness for C1: the Gateway with an invalid credential, backend
`gemini-1.5-pro`, temperature 0 (within `[0, max_temperature]`). -/
theorem generate_total_witness :
    (∃ text, svcFail "test" "gemini-1.5-pro" 0 = .ok text ∧
      get_gemini_response svcFail "test" "gemini-1.5-pro" 0 [] =
        (text, [])) ∨
    (∃ e, svcFail "test" "gemini-1.5-pro" 0 = .error e ∧
      get_gemini_response svcFail "test" "gemini-1.5-pro" 0 [] =
        ("An error occurred with " ++ "gemini-1.5-pro" ++ ": " ++ e,
         [] ++ ["An error occurred with " ++ "gemini-1.5-pro" ++ ": " ++ e])) :=
  generate_total svcFail "test" 0 [] "Gemini 1.5 Pro"
    ⟨"gemini-1.5-pro", "Most capable model for complex tasks", 1, 7/10⟩
    (List.mem_cons_self _ _) (le_refl 0) zero_le_one

/-- C2: `save_conversation` never propagates an error: whenever the
read-append-write does not fully succeed, the call still returns a normal
pair, the caught exception is logged as
`"Error saving conversation: <msg>"`, and the store is left as it was (the
turn is silently lost). -/
theorem save_conversation_swallows_errors (env : IOEnv) (fs : FileState)
    (question response model_name timestamp : String) (log : List String)
    (hf : saveSucceeds env fs = false) :
    ∃ e, save_conversation env fs question response model_name timestamp log =
      (fs, log ++ ["Error saving conversation: " ++ e]) := by
  unfold saveSucceeds readOk at hf
  cases hr : readStore env fs with
  | error e => exact ⟨e, by simp [save_conversation, hr]⟩
  | ok cs =>
      rw [hr] at hf
      simp only [Bool.true_and] at hf
      cases hw : env.writeErr with
      | none => rw [hw] at hf; simp at hf
      | some e => exact ⟨e, by simp [save_conversation, hr, hw]⟩

/-- Witness for C2: a write failing with "disk full" on an empty store. -/
theorem save_conversation_swallows_errors_witness :
    ∃ e, save_conversation ⟨none, some "disk full"⟩ .absent
        "hi" "hello" "Gemini 1.5 Flash" "2024-01-01 00:00:00" [] =
      (.absent, [] ++ ["Error saving conversation: " ++ e]) :=
  save_conversation_swallows_errors ⟨none, some "disk full"⟩ .absent
    "hi" "hello" "Gemini 1.5 Flash" "2024-01-01 00:00:00" [] (by decide)

/-- Helper: the fully successful path of `save_conversation` rewrites the
store to the old list with the new record appended and logs the three
diagnostic lines. -/
theorem save_conversation_success (env : IOEnv) (fs : FileState)
    (question response model_name timestamp : String) (log : List String)
    (cs : List ConversationRec)
    (hr : readStore env fs = .ok cs) (hw : env.writeErr = none) :
    save_conversation env fs question response model_name timestamp log =
      (.valid (cs ++ [mkConversation timestamp model_name question response]),
       log ++ ["Model: " ++ model_name,
               "Q: " ++ question,
               "R: " ++ response]) := by
  simp [save_conversation, hr, hw]

/-- C4: appending a turn to a readable store and reloading yields, as the
final record, exactly the four written field values, the timestamp string
reproduced unchanged. -/
theorem save_round_trip (env reload : IOEnv) (fs : FileState)
    (question response model_name timestamp : String) (log : List String)
    (cs : List ConversationRec)
    (hr : readStore env fs = .ok cs) (hw : env.writeErr = none)
    (hr' : reload.readErr = none) :
    ∃ cs', readStore reload
        (save_conversation env fs question response model_name timestamp
          log).1 = .ok cs' ∧
      cs'.getLast? = some (mkConversation timestamp model_name question
        response) ∧
      (mkConversation timestamp model_name question response).timestamp =
        some timestamp ∧
      (mkConversation timestamp model_name question response).model =
        some model_name ∧
      (mkConversation timestamp model_name question response).question =
        some question ∧
      (mkConversation timestamp model_name question response).response =
        some response := by
  refine ⟨cs ++ [mkConversation timestamp model_name question response],
    ?_, ?_, rfl, rfl, rfl, rfl⟩
  · rw [save_conversation_success env fs question response model_name
      timestamp log cs hr hw]
    simp [readStore, hr']
  · exact List.getLast?_concat _

/-- Witness for C4: round trip of one concrete turn through an empty store. -/
theorem save_round_trip_witness :
    ∃ cs', readStore ⟨none, none⟩
        (save_conversation ⟨none, none⟩ .absent
          "hi" "hello" "Gemini 1.5 Flash" "2024-01-01 00:00:00" []).1 =
        .ok cs' ∧
      cs'.getLast? = some (mkConversation "2024-01-01 00:00:00"
        "Gemini 1.5 Flash" "hi" "hello") ∧
      (mkConversation "2024-01-01 00:00:00" "Gemini 1.5 Flash" "hi"
        "hello").timestamp = some "2024-01-01 00:00:00" ∧
      (mkConversation "2024-01-01 00:00:00" "Gemini 1.5 Flash" "hi"
        "hello").model = some "Gemini 1.5 Flash" ∧
      (mkConversation "2024-01-01 00:00:00" "Gemini 1.5 Flash" "hi"
        "hello").question = some "hi" ∧
      (mkConversation "2024-01-01 00:00:00" "Gemini 1.5 Flash" "hi"
        "hello").response = some "hello" :=
  save_round_trip ⟨none, none⟩ ⟨none, none⟩ .absent
    "hi" "hello" "Gemini 1.5 Flash" "2024-01-01 00:00:00" [] []
    rfl rfl rfl

/-- C6: a successful append rewrites the store to exactly the old list with
the new record at the end: every previously persisted turn is kept unchanged
and in its original position, and the new turn is last. -/
theorem save_preserves_existing (env : IOEnv) (fs : FileState)
    (question response model_name timestamp : String) (log : List String)
    (cs : List ConversationRec)
    (hr : readStore env fs = .ok cs) (hw : env.writeErr = none) :
    (save_conversation env fs question response model_name timestamp
        log).1 =
      .valid (cs ++ [mkConversation timestamp model_name question
        response]) ∧
    (cs ++ [mkConversation timestamp model_name question response]).take
        cs.length = cs ∧
    (∀ i, i < cs.length →
      (cs ++ [mkConversation timestamp model_name question response])[i]? =
        cs[i]?) ∧
    (cs ++ [mkConversation timestamp model_name question
        response]).getLast? =
      some (mkConversation timestamp model_name question response) := by
  refine ⟨?_, ?_, ?_, List.getLast?_concat _⟩
  · rw [save_conversation_success env fs question response model_name
      timestamp log cs hr hw]
  · exact List.take_left cs _
  · intro i hi
    rw [List.getElem?_append, if_pos hi]

/-- Witness for C6: appending to a store that already holds one turn. -/
theorem save_preserves_existing_witness :
    (save_conversation ⟨none, none⟩
        (.valid [mkConversation "2024-01-01 00:00:00" "Gemini 1.5 Flash"
          "hi" "hello"])
        "why" "because" "Gemini 1.5 Pro" "2024-01-02 00:00:00" []).1 =
      .valid ([mkConversation "2024-01-01 00:00:00" "Gemini 1.5 Flash"
          "hi" "hello"] ++
        [mkConversation "2024-01-02 00:00:00" "Gemini 1.5 Pro" "why"
          "because"]) ∧
    ([mkConversation "2024-01-01 00:00:00" "Gemini 1.5 Flash" "hi"
        "hello"] ++
      [mkConversation "2024-01-02 00:00:00" "Gemini 1.5 Pro" "why"
        "because"]).take
        [mkConversation "2024-01-01 00:00:00" "Gemini 1.5 Flash" "hi"
          "hello"].length =
      [mkConversation "2024-01-01 00:00:00" "Gemini 1.5 Flash" "hi"
        "hello"] ∧
    (∀ i, i < [mkConversation "2024-01-01 00:00:00" "Gemini 1.5 Flash"
        "hi" "hello"].length →
      ([mkConversation "2024-01-01 00:00:00" "Gemini 1.5 Flash" "hi"
          "hello"] ++
        [mkConversation "2024-01-02 00:00:00" "Gemini 1.5 Pro" "why"
          "because"])[i]? =
        [mkConversation "2024-01-01 00:00:00" "Gemini 1.5 Flash" "hi"
          "hello"][i]?) ∧
    ([mkConversation "2024-01-01 00:00:00" "Gemini 1.5 Flash" "hi"
        "hello"] ++
      [mkConversation "2024-01-02 00:00:00" "Gemini 1.5 Pro" "why"
        "because"]).getLast? =
      some (mkConversation "2024-01-02 00:00:00" "Gemini 1.5 Pro" "why"
        "because") :=
  save_preserves_existing ⟨none, none⟩
    (.valid [mkConversation "2024-01-01 00:00:00" "Gemini 1.5 Flash" "hi"
      "hello"])
    "why" "because" "Gemini 1.5 Pro" "2024-01-02 00:00:00" []
    [mkConversation "2024-01-01 00:00:00" "Gemini 1.5 Flash" "hi" "hello"]
    rfl rfl

/-- Helper: one fully successful `save_conversation` call leaves the store a
parsed list holding one more record than before. -/
theorem save_success_count (env : IOEnv) (fs : FileState)
    (question response model_name timestamp : String) (log : List String)
    (c : Nat) (h0 : initialCount fs = some c)
    (hs : saveSucceeds env fs = true) :
    ∃ cs, (save_conversation env fs question response model_name timestamp
        log).1 = .valid cs ∧ cs.length = c + 1 := by
  unfold saveSucceeds readOk at hs
  cases hw : env.writeErr with
  | some e => rw [hw] at hs; simp at hs
  | none =>
      cases fs with
      | absent =>
          have hc : c = 0 := by simpa [initialCount] using h0.symm
          subst hc
          refine ⟨[mkConversation timestamp model_name question response],
            ?_, rfl⟩
          rw [save_conversation_success env .absent question response
            model_name timestamp log [] rfl hw]
          simp
      | corrupt m => simp [readStore] at hs
      | valid cs =>
          cases hre : env.readErr with
          | some e => rw [show readStore env (.valid cs) = .error e by
              simp [readStore, hre]] at hs; simp at hs
          | none =>
              refine ⟨cs ++ [mkConversation timestamp model_name question
                response], ?_, ?_⟩
              · rw [save_conversation_success env _ question response
                  model_name timestamp log cs (by simp [readStore, hre]) hw]
              · simp [initialCount] at h0
                simp [h0]

/-- Helper: the `conversation_count` displayed by the sidebar for a parsed
store list is its length. -/
theorem conversation_count_valid (cs : List ConversationRec) :
    conversation_count ⟨none, none⟩ (.valid cs) = .ok (some cs.length) := by
  simp [conversation_count, sidebar_stats, readStore, Except.map]

/-- Helper: `n` fully successful `save_conversation` calls grow the logical
record count by exactly `n`, and for `n ≥ 1` leave a parsed store of that
size. -/
theorem runAppends_count (steps : List (IOEnv × SaveInput)) :
    ∀ fs c, initialCount fs = some c → allSucceed steps fs = true →
      initialCount (runAppends steps fs) = some (c + steps.length) ∧
      (steps ≠ [] → ∃ cs, runAppends steps fs = .valid cs ∧
        cs.length = c + steps.length) := by
  induction steps with
  | nil => intro fs c h0 _; simpa using h0
  | cons step rest ih =>
      intro fs c h0 hs
      obtain ⟨env, inp⟩ := step
      rw [allSucceed] at hs
      rw [Bool.and_eq_true] at hs
      obtain ⟨cs', hfs', hlen⟩ := save_success_count env fs inp.question
        inp.response inp.model_name inp.timestamp [] c h0 hs.1
      have h0' : initialCount (save_conversation env fs inp.question
          inp.response inp.model_name inp.timestamp []).1 = some (c + 1) := by
        rw [hfs']; simpa [initialCount] using hlen
      obtain ⟨hcount, hvalid⟩ := ih _ (c + 1) h0' hs.2
      constructor
      · rw [runAppends]
        rw [hcount]
        simp
        omega
      · intro _
        rw [runAppends]
        rcases Decidable.em (rest = []) with hrest | hrest
        · subst hrest
          refine ⟨cs', ?_, ?_⟩
          · simpa [runAppends] using hfs'
          · simpa using hlen
        · obtain ⟨cs'', hfs'', hlen''⟩ := hvalid hrest
          exact ⟨cs'', hfs'', by rw [hlen'']; simp; omega⟩

/-- C3: starting from any store state holding `c` records, a sequence of `n`
fully successful `save_conversation` calls leaves the store with `c + n`
records, and (once at least one append happened) the sidebar statistics
routine reports exactly `c + n` as the total conversation count. -/
theorem stats_total_after_appends (steps : List (IOEnv × SaveInput))
    (fs : FileState) (c : Nat)
    (h0 : initialCount fs = some c) (hs : allSucceed steps fs = true) :
    initialCount (runAppends steps fs) = some (c + steps.length) ∧
    (steps ≠ [] → conversation_count ⟨none, none⟩ (runAppends steps fs) =
      .ok (some (c + steps.length))) := by
  obtain ⟨hcount, hvalid⟩ := runAppends_count steps fs c h0 hs
  refine ⟨hcount, fun hne => ?_⟩
  obtain ⟨cs, hfs, hlen⟩ := hvalid hne
  rw [hfs, conversation_count_valid, hlen]

/-- Two fault-free append calls, used to instantiate C3's theorem. -/
def sampleSteps : List (IOEnv × SaveInput) :=
  [(⟨none, none⟩, ⟨"hi", "hello", "Gemini 1.5 Flash",
     "2024-01-01 00:00:00"⟩),
   (⟨none, none⟩, ⟨"why", "because", "Gemini 1.5 Pro",
     "2024-01-02 00:00:00"⟩)]

/-- Witness for C3: two successful appends to an initially empty (absent)
store yield a reported total of 2. -/
theorem stats_total_after_appends_witness :
    initialCount (runAppends sampleSteps .absent) = some (0 + 2) ∧
    (sampleSteps ≠ [] →
      conversation_count ⟨none, none⟩ (runAppends sampleSteps .absent) =
        .ok (some (0 + 2))) :=
  stats_total_after_appends sampleSteps .absent 0 rfl (by decide)

/-- Helper: one tally step adds exactly one to the summed counts. -/
theorem sumValues_bumpCount (acc : List (String × Nat)) (m : String) :
    sumValues (bumpCount acc m) = sumValues acc + 1 := by
  induction acc with
  | nil => rfl
  | cons p rest ih =>
      obtain ⟨k, v⟩ := p
      by_cases h : k = m
      · simp [bumpCount, h, sumValues]
        omega
      · simp [bumpCount, h, sumValues, ih]
        omega

/-- Helper: folding the tally over a record list adds its length to the
summed counts. -/
theorem sumValues_foldl (cs : List ConversationRec) :
    ∀ acc, sumValues (cs.foldl countStep acc) = sumValues acc + cs.length := by
  induction cs with
  | nil => intro acc; simp
  | cons c rest ih =>
      intro acc
      rw [List.foldl_cons, ih, countStep, sumValues_bumpCount]
      simp
      omega

/-- C5: whenever the sidebar statistics block succeeds, the per-model counts
it computes sum to the total conversation count it reports. -/
theorem per_model_sums_to_total (env : IOEnv) (fs : FileState) (total : Nat)
    (pm : List (String × Nat))
    (h : sidebar_stats env fs = .ok (some (total, pm))) :
    sumValues pm = total := by
  unfold sidebar_stats at h
  by_cases ha : fs = .absent
  · simp [ha] at h
  · rw [if_neg ha] at h
    cases hr : readStore env fs with
    | error e => rw [hr] at h; simp at h
    | ok cs =>
        rw [hr] at h
        simp only [Except.ok.injEq, Option.some.injEq, Prod.mk.injEq] at h
        obtain ⟨htot, hpm⟩ := h
        subst htot hpm
        simpa [model_counts, sumValues] using sumValues_foldl cs []

/-- Witness for C5: a store holding three records over two models. -/
theorem per_model_sums_to_total_witness :
    sumValues (model_counts
      [mkConversation "2024-01-01 00:00:00" "Gemini 1.5 Flash" "hi" "hello",
       mkConversation "2024-01-02 00:00:00" "Gemini 1.5 Pro" "why" "because",
       mkConversation "2024-01-03 00:00:00" "Gemini 1.5 Flash" "ok" "yes"]) =
      3 :=
  per_model_sums_to_total ⟨none, none⟩
    (.valid
      [mkConversation "2024-01-01 00:00:00" "Gemini 1.5 Flash" "hi" "hello",
       mkConversation "2024-01-02 00:00:00" "Gemini 1.5 Pro" "why" "because",
       mkConversation "2024-01-03 00:00:00" "Gemini 1.5 Flash" "ok" "yes"])
    3 _ rfl

/-- Helper: one tally step adds one to the key it bumps and leaves every
other key's count unchanged. -/
theorem lookupCount_bumpCount (acc : List (String × Nat)) (m k : String) :
    lookupCount (bumpCount acc m) k =
      lookupCount acc k + (if k = m then 1 else 0) := by
  induction acc with
  | nil =>
      by_cases h : k = m
      · subst h; simp [bumpCount, lookupCount]
      · simp [bumpCount, lookupCount, h, Ne.symm h]
  | cons p rest ih =>
      obtain ⟨a, v⟩ := p
      by_cases ham : a = m
      · subst ham
        by_cases hak : a = k
        · subst hak; simp [bumpCount, lookupCount]
        · simp [bumpCount, lookupCount, hak, Ne.symm hak]
      · by_cases hak : a = k
        · subst hak
          simp [bumpCount, lookupCount, ham, Ne.symm ham]
        · simp [bumpCount, lookupCount, ham, hak, ih]

/-- Helper: folding the tally over a record list adds, for each key, the
number of records whose (defaulted) model label is that key. -/
theorem lookupCount_foldl (cs : List ConversationRec) :
    ∀ acc k, lookupCount (cs.foldl countStep acc) k =
      lookupCount acc k +
        cs.countP (fun c => decide (c.model.getD "Unknown" = k)) := by
  induction cs with
  | nil => intro acc k; simp
  | cons c rest ih =>
      intro acc k
      rw [List.foldl_cons, ih, countStep, lookupCount_bumpCount,
        List.countP_cons]
      by_cases h : c.model.getD "Unknown" = k
      · simp [h]
        omega
      · simp [h, Ne.symm h]

/-- C10: in the per-model tally, the count recorded under the key
`"Unknown"` is exactly the number of records whose `model` field is missing
or literally `"Unknown"`; in particular a record lacking the field is
counted there rather than failing, and `model_counts` is total over such
lists. -/
theorem missing_model_counted_unknown (cs : List ConversationRec) :
    lookupCount (model_counts cs) "Unknown" =
      cs.countP (fun c =>
        decide (c.model = none ∨ c.model = some "Unknown")) := by
  have h := lookupCount_foldl cs [] "Unknown"
  rw [model_counts, h]
  simp only [lookupCount, Nat.zero_add]
  apply List.countP_congr
  intro c _
  cases hm : c.model with
  | none => simp [Option.getD]
  | some v => simp [Option.getD]

/-- C7 (amended): a completed interaction cycle whose store read and write
succeed appends exactly one record, whose `response` field holds the
Gateway's result — the verbatim text on success, or the
`"An error occurred with ..."` string on a service failure — through the
same `save_conversation` path and the same four-field record shape, with no
extra field or marker distinguishing the two cases. -/
theorem chat_cycle_persists_one_turn (svc : GenService) (env : IOEnv)
    (selected_model : String) (d : ModelDescriptor) (temp : ℚ)
    (timestamp prompt : String) (messages : List Message) (fs : FileState)
    (log : List String) (cs : List ConversationRec)
    (hfind : MODELS.find? (fun p => p.1 = selected_model) =
      some (selected_model, d))
    (hr : readStore env fs = .ok cs) (hw : env.writeErr = none) :
    ∃ response log',
      chat_handler svc env selected_model temp timestamp prompt messages fs
          log =
        some (messages ++ [⟨"user", prompt, none⟩,
                ⟨"assistant", response, some selected_model⟩],
              .valid (cs ++ [mkConversation timestamp selected_model prompt
                response]),
              log') ∧
      ((∃ text, svc prompt d.model_name temp = .ok text ∧ response = text) ∨
       (∃ e, svc prompt d.model_name temp = .error e ∧
         response =
           "An error occurred with " ++ d.model_name ++ ": " ++ e)) := by
  unfold chat_handler
  rw [hfind]
  cases hsvc : svc prompt d.model_name temp with
  | ok text =>
      refine ⟨text, log ++ ["Model: " ++ selected_model, "Q: " ++ prompt,
        "R: " ++ text], ?_, .inl ⟨text, rfl, rfl⟩⟩
      simp only [Option.map_some', get_gemini_response, hsvc]
      rw [save_conversation_success env fs prompt text selected_model
        timestamp log cs hr hw]
      simp
  | error e =>
      refine ⟨"An error occurred with " ++ d.model_name ++ ": " ++ e,
        (log ++ ["An error occurred with " ++ d.model_name ++ ": " ++ e]) ++
          ["Model: " ++ selected_model, "Q: " ++ prompt,
           "R: " ++ ("An error occurred with " ++ d.model_name ++ ": " ++
             e)], ?_, .inr ⟨e, rfl, rfl⟩⟩
      simp only [Option.map_some', get_gemini_response, hsvc]
      rw [save_conversation_success env fs prompt _ selected_model
        timestamp _ cs hr hw]
      simp

/-- Witness for C7 (amended): a fault-free store and a failing service; the
error string is persisted as the sole new record's response. -/
theorem chat_cycle_persists_one_turn_witness :
    ∃ response log',
      chat_handler svcFail ⟨none, none⟩ "Gemini 1.5 Pro" 1
          "2024-01-01 00:00:00" "hi" [] .absent [] =
        some ([] ++ [⟨"user", "hi", none⟩,
                ⟨"assistant", response, some "Gemini 1.5 Pro"⟩],
              .valid ([] ++ [mkConversation "2024-01-01 00:00:00"
                "Gemini 1.5 Pro" "hi" response]),
              log') ∧
      ((∃ text, svcFail "hi" "gemini-1.5-pro" 1 = .ok text ∧
          response = text) ∨
       (∃ e, svcFail "hi" "gemini-1.5-pro" 1 = .error e ∧
         response =
           "An error occurred with " ++ "gemini-1.5-pro" ++ ": " ++ e)) :=
  chat_cycle_persists_one_turn svcFail ⟨none, none⟩ "Gemini 1.5 Pro"
    ⟨"gemini-1.5-pro", "Most capable model for complex tasks", 1, 7/10⟩ 1
    "2024-01-01 00:00:00" "hi" [] .absent [] [] rfl rfl rfl

/-- Counterexample to C7 as stated: a completed interaction cycle under a
failing store write leaves the store unchanged — zero turns persisted, not
exactly one. -/
theorem chat_cycle_counterexample :
    (chat_handler svcFail ⟨none, some "disk full"⟩ "Gemini 1.5 Pro" 1
        "2024-01-01 00:00:00" "hi" [] (.valid []) []).map
        (fun r => r.2.1) = some (.valid []) := by
  rfl

/-- C8 (amended): every error in the append path is caught, logged as
`"Error saving conversation: ..."` and not propagated; the sidebar
statistics read, by contrast, performs no recovery: it lets an exception
escape exactly when the store file exists and reading it fails. -/
theorem store_error_surfacing (env : IOEnv) (fs : FileState)
    (question response model_name timestamp : String) (log : List String) :
    (saveSucceeds env fs = false →
      ∃ e, save_conversation env fs question response model_name timestamp
          log =
        (fs, log ++ ["Error saving conversation: " ++ e])) ∧
    ((∃ e, sidebar_stats env fs = .error e) ↔
      (fs ≠ .absent ∧ ∃ e, readStore env fs = .error e)) := by
  constructor
  · intro hf
    unfold saveSucceeds readOk at hf
    cases hr : readStore env fs with
    | error e => exact ⟨e, by simp [save_conversation, hr]⟩
    | ok cs =>
        rw [hr] at hf
        simp only [Bool.true_and] at hf
        cases hw : env.writeErr with
        | none => rw [hw] at hf; simp at hf
        | some e => exact ⟨e, by simp [save_conversation, hr, hw]⟩
  · by_cases ha : fs = .absent
    · subst ha
      simp [sidebar_stats]
    · simp only [sidebar_stats, if_neg ha]
      cases hr : readStore env fs with
      | error e => simp [hr, ha]
      | ok cs => simp [hr, ha]

/-- Witness for C8 (amended): a corrupt store file; the append path logs
and swallows, while the statistics read propagates. -/
theorem store_error_surfacing_witness :
    (saveSucceeds ⟨none, none⟩ (.corrupt "Expecting value") = false →
      ∃ e, save_conversation ⟨none, none⟩ (.corrupt "Expecting value")
          "hi" "hello" "Gemini 1.5 Flash" "2024-01-01 00:00:00" [] =
        (.corrupt "Expecting value",
         [] ++ ["Error saving conversation: " ++ e])) ∧
    ((∃ e, sidebar_stats ⟨none, none⟩ (.corrupt "Expecting value") =
        .error e) ↔
      ((.corrupt "Expecting value" : FileState) ≠ .absent ∧
        ∃ e, readStore ⟨none, none⟩ (.corrupt "Expecting value") =
          .error e)) :=
  store_error_surfacing ⟨none, none⟩ (.corrupt "Expecting value")
    "hi" "hello" "Gemini 1.5 Flash" "2024-01-01 00:00:00" []

/-- Counterexample to C8 as stated: with an unparseable `conversations.json`
the sidebar statistics read raises (`json.load` has no handler there), so a
store-read failure does surface to the user-facing flow. -/
theorem stats_read_error_counterexample :
    sidebar_stats ⟨none, none⟩
        (.corrupt "Expecting value: line 1 column 1 (char 0)") =
      .error "Expecting value: line 1 column 1 (char 0)" := by
  rfl

/-- C9 (amended): the three diagnostic log lines (model name, question,
response) are written only when the store read and write both succeed; when
either fails, `save_conversation` instead appends the single line
`"Error saving conversation: <msg>"`. -/
theorem diagnostic_lines_only_on_success (env : IOEnv) (fs : FileState)
    (question response model_name timestamp : String) (log : List String) :
    (save_conversation env fs question response model_name timestamp
        log).2 =
      match saveError env fs with
      | none => log ++ ["Model: " ++ model_name, "Q: " ++ question,
          "R: " ++ response]
      | some e => log ++ ["Error saving conversation: " ++ e] := by
  unfold saveError
  cases hr : readStore env fs with
  | error e => simp [save_conversation, hr]
  | ok cs =>
      cases hw : env.writeErr with
      | none => simp [save_conversation, hr, hw]
      | some e => simp [save_conversation, hr, hw]

/-- Counterexample to C9 as stated: when the store read fails the three
diagnostic lines are not emitted — only the error line is. -/
theorem diagnostic_lines_counterexample :
    (save_conversation ⟨some "Permission denied", none⟩ (.valid [])
        "hi" "hello" "Gemini 1.5 Flash" "2024-01-01 00:00:00" []).2 =
      ["Error saving conversation: Permission denied"] ∧
    "Model: Gemini 1.5 Flash" ∉
      (save_conversation ⟨some "Permission denied", none⟩ (.valid [])
        "hi" "hello" "Gemini 1.5 Flash" "2024-01-01 00:00:00" []).2 := by
  decide

end LearnLM
